import Mathlib

/-!
Verification of the graphics-pack management core (`core/graphics.py`) of
python-lnp, against its natural-language specification.

The Python module is shallowly embedded: pure string manipulation is
translated function-by-function; filesystem reads are modelled by an
abstract read-only view `FS`; external collaborator modules (`paths`,
`manifest`, `mods`, `baselines`, `colors`, `df`, `DFRaw`, the settings
store) are modelled as oracle fields of an environment `Env`, matching the
interfaces the specification declares for them; filesystem mutation during
installation is modelled by explicit state passing, with fallible steps
returning `Except` (an exception carries the state at the point it was
raised, mirroring Python exception propagation out of a half-finished
step sequence).
-/

set_option autoImplicit false

/-- Python whitespace characters relevant to `str.strip()` (the ASCII
subset; the log lines handled by this module contain only ASCII). -/
def isPySpace (c : Char) : Bool :=
  c = ' ' || c = '\t' || c = '\n' || c = '\r' || c = '\x0b' || c = '\x0c'

/-- Model of Python `str.strip()`: drop whitespace from both ends. -/
def pyStrip (s : String) : String :=
  String.mk (((s.data.dropWhile isPySpace).reverse.dropWhile isPySpace).reverse)

/-- List-level check that the first list starts with the second. -/
def listStartsWith : List Char → List Char → Bool
  | _, [] => true
  | [], _ :: _ => false
  | a :: as, b :: bs => a == b && listStartsWith as bs

/-- Model of Python `str.startswith(pre)`. -/
def pyStartswith (s pre : String) : Bool :=
  listStartsWith s.data pre.data

/-- Model of Python `str.endswith(suf)`. -/
def pyEndswith (s suf : String) : Bool :=
  listStartsWith s.data.reverse suf.data.reverse

/-- Model of Python `str.replace(pat, repl)` on character lists: replace
every non-overlapping occurrence, scanning left to right.  Python never
calls this with an empty pattern in this module; for an empty pattern the
input is returned unchanged. -/
def pyReplaceFuel (pat repl : List Char) : Nat → List Char → List Char
  | 0, s => s
  | _ + 1, [] => []
  | n + 1, c :: rest =>
    if listStartsWith (c :: rest) pat then
      repl ++ pyReplaceFuel pat repl n ((c :: rest).drop pat.length)
    else
      c :: pyReplaceFuel pat repl n rest

/-- Same, dispatching on an empty pattern, with the input length as fuel:
a nonempty pattern consumes at least one character per step, so this fuel
is never exhausted and the recursion is structural. -/
def pyReplaceList (pat repl : List Char) (s : List Char) : List Char :=
  match pat with
  | [] => s
  | _ :: _ => pyReplaceFuel pat repl s.length s

/-- Model of Python `str.replace(pat, repl)`. -/
def pyReplace (s pat repl : String) : String :=
  String.mk (pyReplaceList pat.data repl.data s.data)

/-- Model of Python string comparison `a < b`: lexicographic over code
points. -/
def pyStrLtList : List Char → List Char → Bool
  | [], [] => false
  | [], _ :: _ => true
  | _ :: _, [] => false
  | a :: as, b :: bs =>
    if a.toNat < b.toNat then true
    else if b.toNat < a.toNat then false
    else pyStrLtList as bs

/-- Model of Python string comparison `a <= b`. -/
def pyStrLe (a b : String) : Bool :=
  pyStrLtList a.data b.data || a == b

/-- Model of Python `os.path.basename`: the part after the last slash. -/
def pyBasename (s : String) : String :=
  String.mk ((s.data.reverse.takeWhile (fun c => c != '/')).reverse)

/-- Read-only view of the filesystem: `file p` is `some lines` when a
regular file exists at path `p` (with its content as a list of lines, as
Python `readlines()` yields them), `none` when no file exists there;
`isdir p` is the `os.path.isdir` test.  Paths are slash-joined strings as
produced by `paths.get`/`os.path.join`. -/
structure FS where
  file : String → Option (List String)
  isdir : String → Bool

/-- Model of `os.path.isfile`. -/
def isfile (fs : FS) (p : String) : Bool :=
  (fs.file p).isSome

/-- Removing one file, as `os.remove` does. -/
def FS.removeFile (fs : FS) (p : String) : FS :=
  ⟨fun q => if q = p then none else fs.file q, fs.isdir⟩

/-- The mutable state threaded through installation: the filesystem plus
the in-memory live configuration (`lnp.settings`), modelled as a total map
from option name to value string. -/
structure State where
  fs : FS
  settings : String → String

/-- Environment of external collaborators, as declared in the spec's
"external interfaces" section: the manifest compatibility predicate, the
mod-layer merge engine, the baseline provider, the settings store, and the
fixed configuration of the active application version.  Installation steps
that are pure filesystem I/O in the source (shutil copies etc.) appear as
oracle transformers `FS → Except FS FS`; a `.error` result models a raised
exception, carrying the filesystem state at the raise point. -/
structure Env where
  /-- `lnp.df_info.version`, the active application version string. -/
  df_version : String
  /-- `lnp.settings.version_has_option`. -/
  version_has_option : String → Bool
  /-- `manifest.is_compatible(category, pack, version)`. -/
  is_compatible : String → String → String → Bool
  /-- `manifest.get_cfg('graphics', pack).get_string('folder_prefix')`;
  the empty string models a missing manifest entry. -/
  manifest_folder_pre : String → String
  /-- Basenames of the entries of `glob.glob(paths.get('graphics', '*'))`. -/
  graphicsGlob : List String
  /-- Entries of `glob.glob(paths.get('save', '*'))` (full path strings). -/
  saveGlob : List String
  /-- `DFRaw(path).get_values` / init-file field lookup: given the lines
  of a configuration file, the value of a field if present. -/
  parseFields : List String → String → Option String
  /-- The external merge engine `mods.update_raw_dir(raw_dir, gfx)`:
  returns success and the filesystem after its side effects (it writes the
  provenance record itself; per the declared interface it returns a
  bool and does not raise). -/
  mods_update : String → String × String → FS → Bool × FS
  /-- The external mod-layer rebuildability check
  `mods.can_rebuild(log_file, strict)`. -/
  mods_can_rebuild : String → Bool → Bool
  /-- Truthiness of `baselines.find_vanilla_raws()`. -/
  find_vanilla_raws : Bool
  /-- `baselines.find_vanilla()`: the baseline path, or `none` for a
  falsy result. -/
  find_vanilla : Option String
  /-- `lnp.userconfig.get_value('insttwbt', True)`. -/
  insttwbt : Bool
  /-- `df.save_params()`: flush the in-memory settings to the live
  configuration files. -/
  save_params : (String → String) → FS → FS
  /-- `df.load_params()`: re-read the in-memory settings from disk. -/
  reload_settings : FS → (String → String)
  /-- `lnp.settings.FONT` (used by `current_pack`'s fallback). -/
  settingsFONT : String
  /-- `lnp.settings.GRAPHICS_FONT` (used by `current_pack`'s fallback). -/
  settingsGRAPHICS_FONT : String
  /-- Install step: backing up the two TwbT art files into the pack
  (graphics.py lines 110-113). -/
  backupArt : String → FS → Except FS FS
  /-- Install step: `rmtree` of `data/art` then `copytree` from the pack
  (graphics.py lines 115-117). -/
  replaceArt : String → FS → Except FS FS
  /-- Install step: `add_tilesets()` (graphics.py line 118). -/
  addTilesets : FS → Except FS FS
  /-- Install step: backfilling `mouse.png`/`font.ttf` from the baseline
  (graphics.py lines 122-126). -/
  backfill : String → FS → Except FS FS
  /-- Install step: colorscheme handling on the at/above-threshold branch
  (`colors.load_colors` of the pack's `colors.txt` plus the copy to
  `_Current graphics pack.txt`; graphics.py lines 136-140). -/
  colorsNew : String → FS → Except FS FS
  /-- Install step: colorscheme handling on the below-threshold branch
  (`colors.load_colors` of the pack's `init.txt` plus guarded removal of
  `_Current graphics pack.txt`; graphics.py lines 142-146). -/
  colorsOld : String → FS → Except FS FS
  /-- Install step: the TwbT `overrides.txt` remove-then-restore, each
  half wrapped in a bare `try/except: pass`, hence total
  (graphics.py lines 150-159). -/
  overridesStep : String → FS → FS
  /-- Install step: the TwbT file-replacement walks
  (graphics.py lines 163-182). -/
  twbtCopy : String → FS → Except FS FS

/-- `logged_graphics(logfile, start)` (graphics.py lines 57-64): scan the
lines of the log file for the first one starting with `start`; return it
stripped of surrounding whitespace with every occurrence of `start`
removed (Python `replace`); return the empty string when the file is
absent or no line matches. -/
def scanLines (start : String) : List String → String
  | [] => ""
  | l :: ls =>
    if pyStartswith l start then pyReplace (pyStrip l) start ""
    else scanLines start ls

/-- `logged_graphics` entry point: guarded by `os.path.isfile`. -/
def logged_graphics (fs : FS) (logfile : String) (start : String := "graphics/") : String :=
  match fs.file logfile with
  | none => ""
  | some lines => scanLines start lines

/-- `get_folder_prefix(pack)` (graphics.py lines 23-29): the manifest
value when truthy (nonempty), else the pack directory name. -/
def folder_prefix_of (env : Env) (pack : String) : String :=
  let fp := env.manifest_folder_pre pack
  if fp ≠ "" then fp else pack

/-- `validate_pack(pack, df_version)` (graphics.py lines 191-207): the
conjunction of the directory, file, and manifest checks, with two more
file checks when the version is at or above `0.31.04`. -/
def validate_pack (env : Env) (fs : FS) (pack : String) (df_version : String) : Bool :=
  let gfx_dir := "graphics/" ++ pack
  fs.isdir gfx_dir &&
  fs.isdir (gfx_dir ++ "/data/init") &&
  fs.isdir (gfx_dir ++ "/data/art") &&
  isfile fs (gfx_dir ++ "/data/init/init.txt") &&
  env.is_compatible "graphics" pack df_version &&
  (if pyStrLe "0.31.04" df_version then
    isfile fs (gfx_dir ++ "/data/init/d_init.txt") &&
    isfile fs (gfx_dir ++ "/data/init/colors.txt")
  else true)

/-- Ordering used by Python `sorted` on the `(dir, FONT, GRAPHICS_FONT)`
tuples of `read_graphics`: lexicographic tuple comparison. -/
def tupLt (a b : String × String × String) : Bool :=
  pyStrLtList a.1.data b.1.data ||
  (a.1 == b.1 && (pyStrLtList a.2.1.data b.2.1.data ||
    (a.2.1 == b.2.1 && pyStrLtList a.2.2.data b.2.2.data)))

/-- Insertion into a sorted list, for the model of Python `sorted`. -/
def sortInsert (x : String × String × String) :
    List (String × String × String) → List (String × String × String)
  | [] => [x]
  | y :: ys => if tupLt y x then y :: sortInsert x ys else x :: y :: ys

/-- Model of Python `sorted` (insertion sort; stability is irrelevant to
the properties proved here, membership is what matters). -/
def pySorted : List (String × String × String) → List (String × String × String)
  | [] => []
  | x :: xs => sortInsert x (pySorted xs)

/-- Field lookup in the configuration file at `path`: `none` when the
file is absent or does not define the field (`DFRaw` parsing is the
external oracle `parseFields`). -/
def fileVals (env : Env) (fs : FS) (path : String) (key : String) : Option String :=
  (fs.file path).bind (fun lines => env.parseFields lines key)

/-- `read_graphics()` (graphics.py lines 66-79): directories under the
graphics root passing the manifest predicate, filtered by
`validate_pack` at the active version, each paired with the two font
fields of its init file, sorted. -/
def read_graphics (env : Env) (fs : FS) : List (String × String × String) :=
  let packs := env.graphicsGlob.filter (fun o =>
    fs.isdir ("graphics/" ++ o) && env.is_compatible "graphics" o env.df_version)
  let result := packs.filterMap (fun p =>
    if validate_pack env fs p env.df_version then
      let init_path := "graphics/" ++ p ++ "/data/init/init.txt"
      some (p, (fileVals env fs init_path "FONT").getD "",
            (fileVals env fs init_path "GRAPHICS_FONT").getD "")
    else none)
  pySorted result

/-- The `init_fields` allow-list of `patch_inits`
(graphics.py lines 270-273), before version filtering. -/
def init_fields_list : List String :=
  ["FONT", "FULLFONT", "GRAPHICS", "GRAPHICS_FONT",
   "GRAPHICS_FULLFONT", "TRUETYPE", "PRINT_MODE",
   "GRAPHICS_BLACK_SPACE", "TEXTURE_PARAM", "MOUSE_PICTURE"]

/-- The `d_init_fields` allow-list of `patch_inits`
(graphics.py lines 213-269), before version filtering. -/
def d_init_fields_list : List String :=
  ["WOUND_COLOR_NONE", "WOUND_COLOR_MINOR",
   "WOUND_COLOR_INHIBITED", "WOUND_COLOR_FUNCTION_LOSS",
   "WOUND_COLOR_BROKEN", "WOUND_COLOR_MISSING", "SKY", "CHASM",
   "PILLAR_TILE", "VARIED_GROUND_TILES", "ENGRAVINGS_START_OBSCURED",
   "TRACK_N", "TRACK_S", "TRACK_E", "TRACK_W", "TRACK_NS",
   "TRACK_NE", "TRACK_NW", "TRACK_SE", "TRACK_SW", "TRACK_EW",
   "TRACK_NSE", "TRACK_NSW", "TRACK_NEW", "TRACK_SEW",
   "TRACK_NSEW", "TRACK_RAMP_N", "TRACK_RAMP_S", "TRACK_RAMP_E",
   "TRACK_RAMP_W", "TRACK_RAMP_NS", "TRACK_RAMP_NE",
   "TRACK_RAMP_NW", "TRACK_RAMP_SE", "TRACK_RAMP_SW",
   "TRACK_RAMP_EW", "TRACK_RAMP_NSE", "TRACK_RAMP_NSW",
   "TRACK_RAMP_NEW", "TRACK_RAMP_SEW", "TRACK_RAMP_NSEW",
   "TREE_ROOT_SLOPING", "TREE_TRUNK_SLOPING",
   "TREE_ROOT_SLOPING_DEAD", "TREE_TRUNK_SLOPING_DEAD",
   "TREE_ROOTS", "TREE_ROOTS_DEAD", "TREE_BRANCHES",
   "TREE_BRANCHES_DEAD", "TREE_SMOOTH_BRANCHES",
   "TREE_SMOOTH_BRANCHES_DEAD", "TREE_TRUNK_PILLAR",
   "TREE_TRUNK_PILLAR_DEAD", "TREE_CAP_PILLAR",
   "TREE_CAP_PILLAR_DEAD", "TREE_TRUNK_N", "TREE_TRUNK_S",
   "TREE_TRUNK_N_DEAD", "TREE_TRUNK_S_DEAD", "TREE_TRUNK_EW",
   "TREE_TRUNK_EW_DEAD", "TREE_CAP_WALL_N", "TREE_CAP_WALL_S",
   "TREE_CAP_WALL_N_DEAD", "TREE_CAP_WALL_S_DEAD", "TREE_TRUNK_E",
   "TREE_TRUNK_W", "TREE_TRUNK_E_DEAD", "TREE_TRUNK_W_DEAD",
   "TREE_TRUNK_NS", "TREE_TRUNK_NS_DEAD", "TREE_CAP_WALL_E",
   "TREE_CAP_WALL_W", "TREE_CAP_WALL_E_DEAD",
   "TREE_CAP_WALL_W_DEAD", "TREE_TRUNK_NW", "TREE_CAP_WALL_NW",
   "TREE_TRUNK_NW_DEAD", "TREE_CAP_WALL_NW_DEAD", "TREE_TRUNK_NE",
   "TREE_CAP_WALL_NE", "TREE_TRUNK_NE_DEAD",
   "TREE_CAP_WALL_NE_DEAD", "TREE_TRUNK_SW", "TREE_CAP_WALL_SW",
   "TREE_TRUNK_SW_DEAD", "TREE_CAP_WALL_SW_DEAD", "TREE_TRUNK_SE",
   "TREE_CAP_WALL_SE", "TREE_TRUNK_SE_DEAD",
   "TREE_CAP_WALL_SE_DEAD", "TREE_TRUNK_NSE",
   "TREE_TRUNK_NSE_DEAD", "TREE_TRUNK_NSW", "TREE_TRUNK_NSW_DEAD",
   "TREE_TRUNK_NEW", "TREE_TRUNK_NEW_DEAD", "TREE_TRUNK_SEW",
   "TREE_TRUNK_SEW_DEAD", "TREE_TRUNK_NSEW",
   "TREE_TRUNK_NSEW_DEAD", "TREE_TRUNK_BRANCH_N",
   "TREE_TRUNK_BRANCH_N_DEAD", "TREE_TRUNK_BRANCH_S",
   "TREE_TRUNK_BRANCH_S_DEAD", "TREE_TRUNK_BRANCH_E",
   "TREE_TRUNK_BRANCH_E_DEAD", "TREE_TRUNK_BRANCH_W",
   "TREE_TRUNK_BRANCH_W_DEAD", "TREE_BRANCH_NS",
   "TREE_BRANCH_NS_DEAD", "TREE_BRANCH_EW", "TREE_BRANCH_EW_DEAD",
   "TREE_BRANCH_NW", "TREE_BRANCH_NW_DEAD", "TREE_BRANCH_NE",
   "TREE_BRANCH_NE_DEAD", "TREE_BRANCH_SW", "TREE_BRANCH_SW_DEAD",
   "TREE_BRANCH_SE", "TREE_BRANCH_SE_DEAD", "TREE_BRANCH_NSE",
   "TREE_BRANCH_NSE_DEAD", "TREE_BRANCH_NSW",
   "TREE_BRANCH_NSW_DEAD", "TREE_BRANCH_NEW",
   "TREE_BRANCH_NEW_DEAD", "TREE_BRANCH_SEW",
   "TREE_BRANCH_SEW_DEAD", "TREE_BRANCH_NSEW",
   "TREE_BRANCH_NSEW_DEAD", "TREE_TWIGS", "TREE_TWIGS_DEAD",
   "TREE_CAP_RAMP", "TREE_CAP_RAMP_DEAD", "TREE_CAP_FLOOR1",
   "TREE_CAP_FLOOR2", "TREE_CAP_FLOOR1_DEAD",
   "TREE_CAP_FLOOR2_DEAD", "TREE_CAP_FLOOR3", "TREE_CAP_FLOOR4",
   "TREE_CAP_FLOOR3_DEAD", "TREE_CAP_FLOOR4_DEAD",
   "TREE_TRUNK_INTERIOR", "TREE_TRUNK_INTERIOR_DEAD"]

/-- Modelled from the spec: `lnp.settings.read_file(path, fields, False)`
of the settings store (module `core/settings.py`, not part of the sources
at hand).  Per the spec's FieldMerger and ConfigFile sections it "merges
present values from the pack's own configuration file(s) into the live
configuration file(s), leaving every field not on the allow-list
untouched": a field on the list that the file defines is overwritten with
the file's value, every other field keeps its live value (the third
argument `False` means absent fields are not erased). -/
def read_file (vals : String → Option String) (fields : List String)
    (live : String → String) : String → String :=
  fun k => if k ∈ fields then ((vals k).getD (live k)) else live k

/-- `patch_inits(gfx_dir)` (graphics.py lines 209-284): filter both
allow-lists by `version_has_option`, pick the detailed-init file by the
`0.31.03` version threshold, then merge the pack's values for the listed
fields into the live settings.  The subsequent `df.save_params()` flush is
the environment oracle `save_params`; the value returned here is the
in-memory live configuration that flush writes out. -/
def patch_inits (env : Env) (fs : FS) (gfx_dir : String)
    (live : String → String) : String → String :=
  let i_fields := init_fields_list.filter env.version_has_option
  let d_fields := d_init_fields_list.filter env.version_has_option
  let init := gfx_dir ++ "/data/init/init.txt"
  let d_init := if pyStrLe env.df_version "0.31.03" then init
    else gfx_dir ++ "/data/init/d_init.txt"
  read_file (fileVals env fs d_init) d_fields
    (read_file (fileVals env fs init) i_fields live)

/-- `current_pack()` (graphics.py lines 35-55): the logged graphics
identifier when the live provenance log yields one; else the first known
pack whose two font fields match the active settings; else a fallback
string synthesized from the active font values. -/
def current_pack (env : Env) (st : State) : String :=
  let logpath := "df/raw/installed_raws.txt"
  let lg := if isfile st.fs logpath then logged_graphics st.fs logpath else ""
  if lg ≠ "" then lg
  else
    match (read_graphics env st.fs).find? (fun t =>
        env.settingsFONT == t.2.1 && env.settingsGRAPHICS_FONT == t.2.2) with
    | some t => t.1
    | none =>
      env.settingsFONT ++
        (if env.version_has_option "GRAPHICS_FONT" then
          "/" ++ env.settingsGRAPHICS_FONT else "")

/-- `update_graphics_raws(raw_dir, pack)` (graphics.py lines 305-328).
Result: the returned value (`none` models Python `None`, `some b` the booleans),
whether the external merge engine was invoked, and the state afterwards.
The two validation declines return before the engine runs; otherwise the
engine is called with the pack and the logged baseline graphics identity,
and its boolean is returned.  Total: the declared engine interface
returns a bool and raises nothing. -/
def update_graphics_raws (env : Env) (raw_dir : String) (pack : String)
    (st : State) : Option Bool × Bool × State :=
  if ¬ validate_pack env st.fs pack env.df_version then (none, false, st)
  else
    let built_log := "baselines/temp/raw/installed_raws.txt"
    let save_raws := logged_graphics st.fs built_log "baselines/"
    if ¬ validate_pack env st.fs pack
        (pyReplace (pyReplace save_raws "df" "0") "_" ".") then
      (none, false, st)
    else
      let built_graphics := logged_graphics st.fs built_log
      let r := env.mods_update raw_dir (pack, built_graphics) st.fs
      (some r.1, true, ⟨r.2, st.settings⟩)

/-- `savegames_to_update()` (graphics.py lines 300-303): the save
directories, excluding every entry whose path ends with `current`
(Python `o.endswith('current')`). -/
def savegames_to_update (env : Env) (fs : FS) : List String :=
  env.saveGlob.filter (fun o => fs.isdir o && ¬ pyEndswith o "current")

/-- `can_rebuild(log_file, strict)` (graphics.py lines 341-354): with no
log file, `not strict`; otherwise true exactly when the logged graphics
identifier is a member of some known pack's `(identity, folder-prefix)`
pair and the external mod-layer check agrees. -/
def can_rebuild (env : Env) (fs : FS) (log_file : String)
    (strict : Bool := true) : Bool :=
  if ¬ isfile fs log_file then !strict
  else
    let names := (read_graphics env fs).map (fun k =>
      (k.1, folder_prefix_of env k.1))
    let graphic_ok := names.any (fun n =>
      logged_graphics fs log_file == n.1 || logged_graphics fs log_file == n.2)
    graphic_ok && env.mods_can_rebuild log_file strict

/-- The loop body of `update_savegames` (graphics.py lines 333-338),
threading the two counters and the state through the list of raw
directories.  Per iteration: the strict `can_rebuild` guard, then (only
if it passed) the raw update, whose truthy result increments `count` and
any other outcome `skipped`. -/
def update_savegames_go (env : Env) : List String → Nat → Nat → State →
    Nat × Nat × State
  | [], count, skipped, st => (count, skipped, st)
  | raws :: rest, count, skipped, st =>
    if can_rebuild env st.fs (raws ++ "/installed_raws.txt") true then
      let r := update_graphics_raws env raws (current_pack env st) st
      if r.1 = some true then
        update_savegames_go env rest (count + 1) skipped r.2.2
      else
        update_savegames_go env rest count (skipped + 1) r.2.2
    else
      update_savegames_go env rest count (skipped + 1) st

/-- `update_savegames()` (graphics.py lines 330-339). -/
def update_savegames (env : Env) (st : State) : Nat × Nat × State :=
  let saves := savegames_to_update env st.fs
  update_savegames_go env (saves.map (fun s => "saves/" ++ s ++ "/raw")) 0 0 st

/-- The Python values `install_graphics` can return, inside a type of
Python values wide enough to make "returns exactly these four" a real
statement. -/
inductive PyVal where
  | pybool (b : Bool)
  | pyint (n : Int)
  | pynone
  deriving DecidableEq

/-- Python truthiness of the returned value: `False`, `0` and `None` are
falsy. -/
def pyTruthy : PyVal → Bool
  | .pybool b => b
  | .pyint n => n ≠ 0
  | .pynone => false

/-- Python equality `==` between these values: `bool` is a subclass of
`int` (`True == 1`, `False == 0`), and `None` equals only `None`. -/
def pyEq : PyVal → PyVal → Bool
  | .pybool a, .pybool b => a == b
  | .pyint a, .pyint b => a == b
  | .pybool a, .pyint b => (if a then (1 : Int) else 0) == b
  | .pyint a, .pybool b => a == (if b then (1 : Int) else 0)
  | .pynone, .pynone => true
  | .pynone, _ => false
  | _, .pynone => false

/-- Outcome of the `try` block of `install_graphics`: the early
`return 0` (a declined raw update) or completion of all steps. -/
inductive TryOut where
  | declined (st : State)
  | completed (st : State)

/-- Lift of a filesystem step into the state-carrying exception monad,
pairing a raised exception's filesystem with the current in-memory
settings (the settings object is not rolled back by an exception). -/
def stepFS (r : Except FS FS) (sett : String → String) : Except State FS :=
  match r with
  | .ok f => .ok f
  | .error f => .error ⟨f, sett⟩

/-- The `try` block of `install_graphics` (graphics.py lines 105-182), in
source order: the raw update (early `return 0` when not truthy), the art
backup, the destructive art replacement, tileset repopulation, baseline
backfill (skipped when `find_vanilla` is falsy), `patch_inits` plus its
`save_params` flush (raising when a needed pack init file is missing, as
Python `open` would), removal of the deprecated space-prefixed
colors file, the version-split colorscheme step, the best-effort
overrides step, and the TwbT walks guarded by the `insttwbt`
preference. -/
def installTry (env : Env) (pack : String) (st : State) : Except State TryOut :=
  let u := update_graphics_raws env "df/raw" pack st
  if u.1 ≠ some true then .ok (.declined u.2.2)
  else do
    let st1 := u.2.2
    let sett := st1.settings
    let fs2 ← stepFS (env.backupArt pack st1.fs) sett
    let fs3 ← stepFS (env.replaceArt pack fs2) sett
    let fs4 ← stepFS (env.addTilesets fs3) sett
    let fs5 ← match env.find_vanilla with
      | some base => stepFS (env.backfill base fs4) sett
      | none => pure fs4
    let gfx := "graphics/" ++ pack
    let init := gfx ++ "/data/init/init.txt"
    let d_init := if pyStrLe env.df_version "0.31.03" then init
      else gfx ++ "/data/init/d_init.txt"
    if isfile fs5 init && isfile fs5 d_init then
      let sett2 := patch_inits env fs5 gfx sett
      let fs6 := env.save_params sett2 fs5
      let fs7 := if isfile fs6 "colors/ Current graphics pack.txt" then
          fs6.removeFile "colors/ Current graphics pack.txt"
        else fs6
      let fs8 ← if pyStrLe "0.31.04" env.df_version then
          stepFS (env.colorsNew pack fs7) sett2
        else
          stepFS (env.colorsOld pack fs7) sett2
      let fs9 := env.overridesStep pack fs8
      let fs10 ← if env.insttwbt then stepFS (env.twbtCopy pack fs9) sett2
        else pure fs9
      pure (.completed ⟨fs10, sett2⟩)
    else throw ⟨fs5, sett⟩

/-- The full result of one `install_graphics` call: the Python return
value, whether `df.load_params()` was requested on the way out, and the
final state. -/
structure InstRes where
  ret : PyVal
  loaded : Bool
  st : State

/-- `install_graphics(pack)` (graphics.py lines 90-189): the
missing-baseline guard (`return None` before the `try` block), then the
`try` block; `return 0` on a declined raw update; on an uncaught-by-steps
completion `df.load_params()` then `return True`; on any caught exception
`df.load_params()` then `return False`. -/
def install_graphics (env : Env) (pack : String) (st : State) : InstRes :=
  if env.find_vanilla_raws = false then ⟨.pynone, false, st⟩
  else
    match installTry env pack st with
    | .ok (.declined st1) => ⟨.pyint 0, false, st1⟩
    | .ok (.completed st1) =>
      ⟨.pybool true, true, ⟨st1.fs, env.reload_settings st1.fs⟩⟩
    | .error st1 =>
      ⟨.pybool false, true, ⟨st1.fs, env.reload_settings st1.fs⟩⟩

/-- Two successive selective merges from the same two sources collapse:
the key-wise overwrite reads its values from the (unchanged) files, so a
second pass writes exactly what the first wrote. -/
theorem read_file_twice (v1 v2 : String → Option String) (f1 f2 : List String)
    (live : String → String) :
    read_file v2 f2 (read_file v1 f1 (read_file v2 f2 (read_file v1 f1 live))) =
      read_file v2 f2 (read_file v1 f1 live) := by
  funext k
  simp only [read_file]
  by_cases h2 : k ∈ f2 <;> by_cases h1 : k ∈ f1 <;>
    simp [h1, h2] <;> cases v2 k <;> cases v1 k <;> simp

/-- C1: `patch_inits` is idempotent — applying the same pack's merge
twice in succession leaves the live configuration (and hence the
`save_params` flush it produces, which is a function of that
configuration) identical to a single application.  The merge is a
value-overwrite per key from the pack's unchanged files. -/
theorem C1_patch_inits_idempotent (env : Env) (fs : FS) (gfx_dir : String)
    (live : String → String) :
    patch_inits env fs gfx_dir (patch_inits env fs gfx_dir live) =
      patch_inits env fs gfx_dir live ∧
    env.save_params (patch_inits env fs gfx_dir (patch_inits env fs gfx_dir live)) fs =
      env.save_params (patch_inits env fs gfx_dir live) fs := by
  have h : patch_inits env fs gfx_dir (patch_inits env fs gfx_dir live) =
      patch_inits env fs gfx_dir live := by
    simp only [patch_inits]
    exact read_file_twice _ _ _ _ live
  exact ⟨h, by rw [h]⟩

/-- C2: `patch_inits` never alters a field outside the two allow-lists:
for any field name on neither list, the merged live configuration agrees
with the original, whatever values the pack's files define. -/
theorem C2_patch_inits_frame (env : Env) (fs : FS) (gfx_dir : String)
    (live : String → String) (k : String)
    (h1 : k ∉ init_fields_list) (h2 : k ∉ d_init_fields_list) :
    patch_inits env fs gfx_dir live k = live k := by
  have g1 : k ∉ init_fields_list.filter env.version_has_option := by
    intro hmem
    exact h1 (List.mem_of_mem_filter hmem)
  have g2 : k ∉ d_init_fields_list.filter env.version_has_option := by
    intro hmem
    exact h2 (List.mem_of_mem_filter hmem)
  simp only [patch_inits, read_file]
  rw [if_neg g2, if_neg g1]

/-- An empty filesystem view: no files, no directories. -/
def emptyFS : FS := ⟨fun _ => none, fun _ => false⟩

/-- A concrete in-memory configuration for witnesses. -/
def sampleSettings : String → String := fun k => "live-" ++ k

/-- A concrete environment: one pack directory `P`, version `0.40.24`,
permissive manifest, a merge engine that always succeeds without
filesystem effects, inert install steps. -/
def sampleEnv : Env where
  df_version := "0.40.24"
  version_has_option := fun _ => true
  is_compatible := fun _ _ _ => true
  manifest_folder_pre := fun _ => ""
  graphicsGlob := ["P"]
  saveGlob := []
  parseFields := fun _ _ => none
  mods_update := fun _ _ fs => (true, fs)
  mods_can_rebuild := fun _ _ => true
  find_vanilla_raws := true
  find_vanilla := none
  insttwbt := false
  save_params := fun _ fs => fs
  reload_settings := fun _ => sampleSettings
  settingsFONT := ""
  settingsGRAPHICS_FONT := ""
  backupArt := fun _ fs => .ok fs
  replaceArt := fun _ fs => .ok fs
  addTilesets := fun fs => .ok fs
  backfill := fun _ fs => .ok fs
  colorsNew := fun _ fs => .ok fs
  colorsOld := fun _ fs => .ok fs
  overridesStep := fun _ fs => fs
  twbtCopy := fun _ fs => .ok fs

/-- A filesystem with a complete pack `P`, plus a provenance log at `log`
recording `graphics/P`. -/
def sampleFS5 : FS where
  file := fun p =>
    if p = "log" then some ["graphics/P"]
    else if p = "graphics/P/data/init/init.txt" then some []
    else if p = "graphics/P/data/init/d_init.txt" then some []
    else if p = "graphics/P/data/init/colors.txt" then some []
    else none
  isdir := fun p =>
    decide (p ∈ ["graphics/P", "graphics/P/data/init", "graphics/P/data/art"])

/-- Witness for C2 at the concrete field `POPULATION_CAP`, which is on
neither allow-list. -/
theorem C2_patch_inits_frame_witness :
    "POPULATION_CAP" ∉ init_fields_list ∧
    "POPULATION_CAP" ∉ d_init_fields_list ∧
    patch_inits sampleEnv sampleFS5 "graphics/P" sampleSettings "POPULATION_CAP" =
      sampleSettings "POPULATION_CAP" :=
  ⟨by decide, by decide,
    C2_patch_inits_frame sampleEnv sampleFS5 "graphics/P" sampleSettings
      "POPULATION_CAP" (by decide) (by decide)⟩

/-- Counterexample to C3: a concrete call on which `install_graphics`
exits on the declined-raw-update path (the pack directory is absent, so
the raw update declines) returning `0` without requesting the
configuration reload — so the reload is not requested on every exit
path. -/
theorem C3_counterexample :
    (install_graphics sampleEnv "P" ⟨emptyFS, sampleSettings⟩).ret =
      PyVal.pyint 0 ∧
    (install_graphics sampleEnv "P" ⟨emptyFS, sampleSettings⟩).loaded = false := by
  constructor <;> rfl

/-- C3 (amended): `install_graphics` requests the `df.load_params`
reload exactly on the success (`True`) and caught-error (`False`) exit
paths; the declined (`0`) and missing-baseline (`None`) exits return
without requesting it. -/
theorem C3_load_params_exit_paths (env : Env) (pack : String) (st : State) :
    (install_graphics env pack st).loaded =
      (decide ((install_graphics env pack st).ret = PyVal.pybool true) ||
       decide ((install_graphics env pack st).ret = PyVal.pybool false)) := by
  by_cases hv : env.find_vanilla_raws = false
  · simp [install_graphics, hv]
  · have hv2 : env.find_vanilla_raws = true := by
      revert hv
      cases env.find_vanilla_raws <;> simp
    rcases h : installTry env pack st with st1 | o
    · simp [install_graphics, hv2, h]
    · cases o with
      | declined st2 => simp [install_graphics, hv2, h]
      | completed st2 => simp [install_graphics, hv2, h]

/-- C4: with the vanilla baseline missing, `install_graphics` returns
`None` immediately: the guard runs before the `try` block, so the final
state — every file and directory — is exactly the input state and the
reload flag is unset. -/
theorem C4_missing_baseline (env : Env) (pack : String) (st : State)
    (h : env.find_vanilla_raws = false) :
    install_graphics env pack st = ⟨PyVal.pynone, false, st⟩ := by
  simp [install_graphics, h]

/-- Concrete environment with no vanilla baseline available. -/
def envNoBase : Env := { sampleEnv with find_vanilla_raws := false }

/-- Witness for C4 at a concrete pack and state. -/
theorem C4_missing_baseline_witness :
    envNoBase.find_vanilla_raws = false ∧
    install_graphics envNoBase "Phoebus" ⟨sampleFS5, sampleSettings⟩ =
      ⟨PyVal.pynone, false, ⟨sampleFS5, sampleSettings⟩⟩ :=
  ⟨rfl, C4_missing_baseline envNoBase "Phoebus" ⟨sampleFS5, sampleSettings⟩ rfl⟩

/-- C5: `can_rebuild` characterized.  With the log file absent it returns
the negation of `strict`, independent of the catalog.  With the log
present it returns true exactly when the logged graphics identifier
equals the identity or the folder-prefix of some currently known pack and
the external mod-layer check with the same `strict` flag agrees; an
identifier matching nothing known yields false regardless of that
check. -/
theorem C5_can_rebuild_characterization (env : Env) (fs : FS)
    (log_file : String) (strict : Bool) :
    (fs.file log_file = none → can_rebuild env fs log_file strict = !strict) ∧
    (fs.file log_file ≠ none →
      (can_rebuild env fs log_file strict = true ↔
        ((∃ t ∈ read_graphics env fs,
            logged_graphics fs log_file = t.1 ∨
            logged_graphics fs log_file = folder_prefix_of env t.1) ∧
          env.mods_can_rebuild log_file strict = true))) := by
  constructor
  · intro h
    simp [can_rebuild, isfile, h]
  · intro h
    have hf : isfile fs log_file = true := by
      rcases hc : fs.file log_file with _ | v
      · exact absurd hc h
      · simp [isfile, hc]
    simp only [can_rebuild, hf, Bool.not_true, not_true_eq_false, if_false,
      List.any_map, Bool.and_eq_true, List.any_eq_true, Function.comp,
      Bool.or_eq_true, beq_iff_eq]
    constructor
    · rintro ⟨⟨x, hx, hor⟩, hm⟩
      rcases List.mem_map.mp hx with ⟨t, ht, rfl⟩
      exact ⟨⟨t, ht, hor⟩, hm⟩
    · rintro ⟨⟨t, ht, hor⟩, hm⟩
      exact ⟨⟨(t.1, folder_prefix_of env t.1), List.mem_map.mpr ⟨t, ht, rfl⟩, hor⟩, hm⟩

/-- Witness for C5: with the log absent, strict gives false and
non-strict gives true regardless of the catalog; with a log recording
`graphics/P` and the pack `P` known, strict rebuild is permitted. -/
theorem C5_can_rebuild_witness :
    (emptyFS.file "nolog" = none ∧
      can_rebuild sampleEnv emptyFS "nolog" true = false ∧
      can_rebuild sampleEnv emptyFS "nolog" false = true) ∧
    (sampleFS5.file "log" ≠ none ∧
      can_rebuild sampleEnv sampleFS5 "log" true = true) :=
  ⟨⟨rfl,
    (C5_can_rebuild_characterization sampleEnv emptyFS "nolog" true).1 rfl,
    (C5_can_rebuild_characterization sampleEnv emptyFS "nolog" false).1 rfl⟩,
   ⟨by simp [sampleFS5],
    ((C5_can_rebuild_characterization sampleEnv sampleFS5 "log" true).2
        (by simp [sampleFS5])).mpr
      ⟨⟨("P", "", ""), by decide, Or.inl (by decide)⟩, rfl⟩⟩⟩

/-- C6: `validate_pack` is true exactly when all required artifacts are
present and the manifest predicate holds — the pack directory, its
`data/init` and `data/art` subdirectories, `data/init/init.txt`, the
manifest compatibility for the given version, and, when the version is at
or above the `0.31.04` threshold, additionally `data/init/d_init.txt` and
`data/init/colors.txt`.  Hence the absence of any required subpath makes
it false, for every version; the checks combine by conjunction with no
partial-validity state. -/
theorem C6_validate_pack_characterization (env : Env) (fs : FS)
    (pack : String) (v : String) :
    validate_pack env fs pack v = true ↔
      (fs.isdir ("graphics/" ++ pack) = true ∧
       fs.isdir ("graphics/" ++ pack ++ "/data/init") = true ∧
       fs.isdir ("graphics/" ++ pack ++ "/data/art") = true ∧
       isfile fs ("graphics/" ++ pack ++ "/data/init/init.txt") = true ∧
       env.is_compatible "graphics" pack v = true ∧
       (pyStrLe "0.31.04" v = true →
         isfile fs ("graphics/" ++ pack ++ "/data/init/d_init.txt") = true ∧
         isfile fs ("graphics/" ++ pack ++ "/data/init/colors.txt") = true)) := by
  by_cases ht : pyStrLe "0.31.04" v = true
  · simp [validate_pack, ht, Bool.and_eq_true]
    tauto
  · simp [validate_pack, ht, Bool.and_eq_true]
    tauto

/-- Witness for C6: the complete concrete pack `P` validates at version
`0.40.24`, discharging the threshold branch. -/
theorem C6_validate_pack_witness :
    validate_pack sampleEnv sampleFS5 "P" "0.40.24" = true :=
  (C6_validate_pack_characterization sampleEnv sampleFS5 "P" "0.40.24").mpr
    ⟨by decide, by decide, by decide, by decide, rfl,
     fun _ => ⟨by decide, by decide⟩⟩

/-- The ProvenanceLog read as the claim words it: the suffix of the first
line whose prefix matches `category + "/"`, with that prefix (one leading
occurrence) stripped and surrounding whitespace removed; empty string
when the file is absent or no line matches. -/
def logged_graphics_claimed (fs : FS) (logfile : String) (start : String) : String :=
  match fs.file logfile with
  | none => ""
  | some lines =>
    match lines.find? (fun l => pyStartswith l start) with
    | none => ""
    | some l => pyStrip (String.mk (l.data.drop start.data.length))

/-- A log whose recorded identifier itself contains the category prefix
again. -/
def logFS7 : FS := ⟨fun p => if p = "log" then some ["graphics/graphics/X"] else none,
  fun _ => false⟩

/-- Counterexample to C7: the source removes every occurrence of the
category prefix (Python `replace`), not only the leading one, so on the
line `graphics/graphics/X` it returns `X` where the claimed
prefix-stripped suffix is `graphics/X`. -/
theorem C7_counterexample :
    logged_graphics logFS7 "log" = "X" ∧
    logged_graphics_claimed logFS7 "log" "graphics/" = "graphics/X" ∧
    ("X" : String) ≠ "graphics/X" := by
  refine ⟨by decide, by decide, by decide⟩

/-- The linear scan of `logged_graphics` agrees with `List.find?` on the
first line matching the prefix. -/
theorem scanLines_eq_find (start : String) (lines : List String) :
    scanLines start lines =
      (match lines.find? (fun l => pyStartswith l start) with
       | none => ""
       | some l => pyReplace (pyStrip l) start "") := by
  induction lines with
  | nil => rfl
  | cons a as ih =>
    by_cases h : pyStartswith a start = true
    · simp [scanLines, List.find?, h]
    · simp only [Bool.not_eq_true] at h
      simp [scanLines, List.find?, h, ih]

/-- C7 (amended): `logged_graphics` is total — the empty string on a
missing file or when no line starts with the category prefix, and for the
first matching line the line stripped of surrounding whitespace with
every occurrence of the prefix removed (Python `replace`, not only the
leading occurrence). -/
theorem C7_logged_graphics_total (fs : FS) (logfile : String) (start : String) :
    (fs.file logfile = none → logged_graphics fs logfile start = "") ∧
    (∀ lines, fs.file logfile = some lines →
      logged_graphics fs logfile start =
        (match lines.find? (fun l => pyStartswith l start) with
         | none => ""
         | some l => pyReplace (pyStrip l) start "")) := by
  constructor
  · intro h
    simp [logged_graphics, h]
  · intro lines h
    simp [logged_graphics, h, scanLines_eq_find]

/-- Witness for C7: both hypotheses discharged concretely — a missing
file yields the empty string, and the `graphics/graphics/X` log yields
`X`. -/
theorem C7_logged_graphics_total_witness :
    (emptyFS.file "absent" = none ∧ logged_graphics emptyFS "absent" "graphics/" = "") ∧
    (logFS7.file "log" = some ["graphics/graphics/X"] ∧
      logged_graphics logFS7 "log" "graphics/" = "X") :=
  ⟨⟨rfl, (C7_logged_graphics_total emptyFS "absent" "graphics/").1 rfl⟩,
   ⟨rfl,
    ((C7_logged_graphics_total logFS7 "log" "graphics/").2
        ["graphics/graphics/X"] rfl).trans (by decide)⟩⟩

/-- C8: `update_graphics_raws` declines — returning the falsy `None`
without invoking the external merge engine and without touching the state
— when the pack fails validation at the active version, or when it fails
re-validation at the version derived from the `baselines` line of the
baseline build log by the textual transform (`df` replaced by `0`, then
underscores by dots); otherwise it invokes the engine with the pack
identity and the logged baseline graphics identity and returns the
engine's boolean (truthy exactly on engine success).  The function is
total by construction — nothing on these paths raises. -/
theorem C8_update_graphics_raws_characterization (env : Env)
    (raw_dir : String) (pack : String) (st : State) :
    (validate_pack env st.fs pack env.df_version = false →
      update_graphics_raws env raw_dir pack st = (none, false, st)) ∧
    (validate_pack env st.fs pack env.df_version = true →
      validate_pack env st.fs pack
        (pyReplace (pyReplace
          (logged_graphics st.fs "baselines/temp/raw/installed_raws.txt"
            "baselines/") "df" "0") "_" ".") = false →
      update_graphics_raws env raw_dir pack st = (none, false, st)) ∧
    (validate_pack env st.fs pack env.df_version = true →
      validate_pack env st.fs pack
        (pyReplace (pyReplace
          (logged_graphics st.fs "baselines/temp/raw/installed_raws.txt"
            "baselines/") "df" "0") "_" ".") = true →
      update_graphics_raws env raw_dir pack st =
        (some (env.mods_update raw_dir
            (pack, logged_graphics st.fs
              "baselines/temp/raw/installed_raws.txt") st.fs).1,
         true,
         ⟨(env.mods_update raw_dir
            (pack, logged_graphics st.fs
              "baselines/temp/raw/installed_raws.txt") st.fs).2,
          st.settings⟩)) := by
  refine ⟨?_, ?_, ?_⟩
  · intro h
    simp [update_graphics_raws, h]
  · intro h1 h2
    simp [update_graphics_raws, h1, h2]
  · intro h1 h2
    simp [update_graphics_raws, h1, h2]

/-- Witness for C8: with the complete pack `P`, validation succeeds at
the active version and at the (empty-log) derived version, and the
always-successful engine yields the applied outcome. -/
theorem C8_update_graphics_raws_witness :
    validate_pack sampleEnv sampleFS5 "P" sampleEnv.df_version = true ∧
    update_graphics_raws sampleEnv "df/raw" "P" ⟨sampleFS5, sampleSettings⟩ =
      (some true, true, ⟨sampleFS5, sampleSettings⟩) :=
  ⟨by decide,
   (C8_update_graphics_raws_characterization sampleEnv "df/raw" "P"
      ⟨sampleFS5, sampleSettings⟩).2.2 (by decide) (by decide)⟩

/-- The save enumeration as the claim words it: every save directory
except the one whose name is exactly `current`. -/
def savegames_claimed (env : Env) (fs : FS) : List String :=
  env.saveGlob.filter (fun o => fs.isdir o && ¬ (pyBasename o == "current"))

/-- Concrete environment whose save root holds one directory named
`xcurrent`. -/
def envC9 : Env := { sampleEnv with saveGlob := ["save/xcurrent"] }

/-- A filesystem on which every path is a directory. -/
def allDirsFS : FS := ⟨fun _ => none, fun _ => true⟩

/-- Counterexample to C9's enumeration: the source excludes every save
directory whose path merely ends with `current` (Python
`o.endswith('current')`), so the save named `xcurrent` is not enumerated
at all, although it is not the reserved name `current`. -/
theorem C9_counterexample :
    savegames_to_update envC9 allDirsFS = [] ∧
    savegames_claimed envC9 allDirsFS = ["save/xcurrent"] := by
  refine ⟨by decide, by decide⟩

/-- Each loop iteration of `update_savegames` increments exactly one of
the two counters, so the totals grow by exactly the number of raw
directories processed. -/
theorem update_savegames_go_sum (env : Env) (l : List String) :
    ∀ count skipped st,
      (update_savegames_go env l count skipped st).1 +
        (update_savegames_go env l count skipped st).2.1 =
      count + skipped + l.length := by
  induction l with
  | nil => intro count skipped st; simp [update_savegames_go]
  | cons raws rest ih =>
    intro count skipped st
    simp only [update_savegames_go]
    by_cases hr : can_rebuild env st.fs (raws ++ "/installed_raws.txt") true = true
    · simp only [hr, if_true]
      by_cases hu : (update_graphics_raws env raws (current_pack env st) st).1 =
          some true
      · simp only [hu, if_true, ih]
        simp [List.length_cons]
        omega
      · simp only [hu, if_false, ih]
        simp [List.length_cons]
        omega
    · simp only [Bool.not_eq_true] at hr
      simp only [hr, Bool.false_eq_true, if_false, ih]
      simp [List.length_cons]
      omega

/-- C9 (amended): `update_savegames` enumerates the save directories
excluding every one whose path ends with `current`, and for each
enumerated save increments exactly one of the applied/skipped counters —
the applied counter exactly when the strict rebuild guard permits and the
raw update reports success — so the two counters always sum to the number
of enumerated saves and no save's failure stops the processing of the
rest. -/
theorem C9_update_savegames_counts (env : Env) (st : State) :
    (update_savegames env st).1 + (update_savegames env st).2.1 =
      (savegames_to_update env st.fs).length := by
  simp [update_savegames, update_savegames_go_sum, List.length_map]

/-- C10: `install_graphics` returns exactly one of the four Python
values `True`, `0`, `None`, `False`; truthiness singles out success
(`True` is the only truthy result); and the declined result `0` and the
error result `False` are equal under Python `==` and share truthiness, so
equality and truthiness distinguish only success from non-success, never
declined from error. -/
theorem C10_install_graphics_result_taxonomy (env : Env) (pack : String)
    (st : State) :
    ((install_graphics env pack st).ret = PyVal.pybool true ∨
     (install_graphics env pack st).ret = PyVal.pyint 0 ∨
     (install_graphics env pack st).ret = PyVal.pynone ∨
     (install_graphics env pack st).ret = PyVal.pybool false) ∧
    (pyTruthy (install_graphics env pack st).ret = true ↔
      (install_graphics env pack st).ret = PyVal.pybool true) ∧
    pyEq (PyVal.pyint 0) (PyVal.pybool false) = true ∧
    pyTruthy (PyVal.pyint 0) = pyTruthy (PyVal.pybool false) := by
  refine ⟨?_, ?_, by decide, by decide⟩ <;>
  · by_cases hv : env.find_vanilla_raws = false
    · simp [install_graphics, hv] <;> decide
    · have hv2 : env.find_vanilla_raws = true := by
        revert hv
        cases env.find_vanilla_raws <;> simp
      rcases h : installTry env pack st with st1 | o
      · simp [install_graphics, hv2, h] <;> decide
      · cases o with
        | declined st2 => simp [install_graphics, hv2, h] <;> decide
        | completed st2 => simp [install_graphics, hv2, h] <;> decide
